import Mathlib

/-!
Shallow embedding of `src/calculator.py`.

The `Calculator` class exposes six stateless arithmetic operations on Python
numbers.  Python numeric values are modelled as real numbers (`ℝ`), and the
error-signalling convention (`raise ValueError(...)`) is modelled by returning
`Except String ℝ`: `Except.error msg` stands for a raised `ValueError` whose
message is `msg`, and `Except.ok r` stands for a normal return of `r`.

Python's binary `**` operator is modelled by `Real.rpow`:
* for `base > 0`, and for `base < 0` with an integer exponent, the two agree;
* for `base < 0` with a non-integer exponent Python returns the principal
  complex power; `Real.rpow` is by definition the real part of that same
  principal complex power, so the embedding keeps its real part;
* for `base = 0` with a negative exponent Python raises
  `ZeroDivisionError("0.0 cannot be raised to a negative power")`; the
  embedding returns the corresponding `Except.error`.  (`Real.rpow 0 y = 0`
  for `y ≠ 0`, so the error branch is needed for faithfulness.)
-/

namespace Calculator

noncomputable section

/-- Embedding of `Calculator.add` (src/calculator.py lines 10-21):
`return a + b`; this code path cannot raise. -/
def add (a b : ℝ) : Except String ℝ :=
  .ok (a + b)

/-- Embedding of `Calculator.subtract` (src/calculator.py lines 23-34):
`return a - b`; this code path cannot raise. -/
def subtract (a b : ℝ) : Except String ℝ :=
  .ok (a - b)

/-- Embedding of `Calculator.multiply` (src/calculator.py lines 36-47):
`return a * b`; this code path cannot raise. -/
def multiply (a b : ℝ) : Except String ℝ :=
  .ok (a * b)

/-- Embedding of `Calculator.divide` (src/calculator.py lines 49-65):
`if b == 0: raise ValueError("Cannot divide by zero")`, else `return a / b`. -/
def divide (a b : ℝ) : Except String ℝ :=
  if b = 0 then .error "Cannot divide by zero"
  else .ok (a / b)

/-- Embedding of `Calculator.power` (src/calculator.py lines 67-78):
`return base ** exponent`.  Python's `**` raises
`ZeroDivisionError("0.0 cannot be raised to a negative power")` when the base
is zero and the exponent is negative; every other input returns normally
(modelled through `Real.rpow`, see the module comment). -/
def power (base exponent : ℝ) : Except String ℝ :=
  if base = 0 ∧ exponent < 0 then
    .error "0.0 cannot be raised to a negative power"
  else .ok (base ^ exponent)

/-- Embedding of `Calculator.square_root` (src/calculator.py lines 80-95):
`if number < 0: raise ValueError("Cannot calculate square root of negative
number")`, else `return number ** 0.5`.  Since the guard rules out a zero or
negative base with the positive exponent `0.5`, the `**` on the return path is
exactly `Real.rpow number 0.5`. -/
def square_root (number : ℝ) : Except String ℝ :=
  if number < 0 then .error "Cannot calculate square root of negative number"
  else .ok (number ^ (0.5 : ℝ))

end

/-- C1: `divide a b` raises if and only if `b = 0`; when it raises, the message
is "Cannot divide by zero", and for every `b ≠ 0` it returns the quotient
`a / b`. -/
theorem divide_error_iff_divisor_zero (a b : ℝ) :
    ((∃ msg, divide a b = .error msg) ↔ b = 0) ∧
    (b = 0 → divide a b = .error "Cannot divide by zero") ∧
    (b ≠ 0 → divide a b = .ok (a / b)) := by
  unfold divide
  by_cases hb : b = 0 <;> simp [hb]

/-- Witness for C1 at concrete inputs: `divide 1 0` raises with the specified
message, and `divide 7 2` returns `7 / 2`. -/
theorem divide_error_iff_divisor_zero_witness :
    divide 1 0 = .error "Cannot divide by zero" ∧
    divide 7 2 = .ok (7 / 2) :=
  ⟨(divide_error_iff_divisor_zero 1 0).2.1 rfl,
   (divide_error_iff_divisor_zero 7 2).2.2 (by norm_num)⟩

/-- C2: `square_root n` raises if and only if `n < 0`; when it raises, the
message is "Cannot calculate square root of negative number", and for every
`n ≥ 0` it returns the square root of `n`. -/
theorem square_root_error_iff_negative (n : ℝ) :
    ((∃ msg, square_root n = .error msg) ↔ n < 0) ∧
    (n < 0 →
      square_root n = .error "Cannot calculate square root of negative number") ∧
    (0 ≤ n → square_root n = .ok (Real.sqrt n)) := by
  unfold square_root
  by_cases hn : n < 0
  · simp [hn]
  · have h05 : (0.5 : ℝ) = 1 / 2 := by norm_num
    simp [hn, Real.rpow_def_of_pos, Real.sqrt_eq_rpow, h05]

/-- Witness for C2 at concrete inputs: `square_root (-4)` raises with the
specified message, and `square_root 16` returns `Real.sqrt 16`. -/
theorem square_root_error_iff_negative_witness :
    square_root (-4) = .error "Cannot calculate square root of negative number" ∧
    square_root 16 = .ok (Real.sqrt 16) :=
  ⟨(square_root_error_iff_negative (-4)).2.1 (by norm_num),
   (square_root_error_iff_negative 16).2.2 (by norm_num)⟩

/-- Counterexample to C3: the claim says `power` never raises for any pair of
numeric inputs, but Python evaluates `0 ** -1` by raising
`ZeroDivisionError("0.0 cannot be raised to a negative power")`, so
`power 0 (-1)` is an error, not a normal return. -/
theorem power_zero_negative_exponent_raises :
    power 0 (-1) = .error "0.0 cannot be raised to a negative power" := by
  unfold power
  rw [if_pos ⟨rfl, by norm_num⟩]

/-- C3 (amended): `add`, `subtract` and `multiply` return a numeric result
without raising on every pair of inputs, and `power` does so on every pair of
inputs except a zero base with a negative exponent (where Python's `**` raises
`ZeroDivisionError`). -/
theorem total_operations_never_raise (a b : ℝ) :
    (∃ r, add a b = .ok r) ∧ (∃ r, subtract a b = .ok r) ∧
    (∃ r, multiply a b = .ok r) ∧
    (¬(a = 0 ∧ b < 0) → ∃ r, power a b = .ok r) := by
  refine ⟨⟨a + b, rfl⟩, ⟨a - b, rfl⟩, ⟨a * b, rfl⟩, fun h => ⟨a ^ b, ?_⟩⟩
  unfold power
  rw [if_neg h]

/-- Witness for C3 (amended) at concrete inputs: `power 2 0.5` returns
normally (its base is nonzero). -/
theorem total_operations_never_raise_witness :
    ∃ r, power 2 0.5 = .ok r :=
  (total_operations_never_raise 2 0.5).2.2.2 (by norm_num)

/-- C4: `add` is commutative: `add a b = add b a` for all real `a`, `b`. -/
theorem add_commutative (a b : ℝ) : add a b = add b a := by
  unfold add
  rw [add_comm a b]

/-- C5: `multiply` is commutative: `multiply a b = multiply b a` for all real
`a`, `b`. -/
theorem multiply_commutative (a b : ℝ) : multiply a b = multiply b a := by
  unfold multiply
  rw [mul_comm a b]

/-- C6: `subtract a a` returns `0` for every real `a`. -/
theorem subtract_self_eq_zero (a : ℝ) : subtract a a = .ok 0 := by
  unfold subtract
  rw [sub_self]

/-- C7: for every `b ≠ 0`, dividing `multiply a b` by `b` returns exactly `a`
(in the real-number model the round trip is exact, hence within any
floating-point tolerance). -/
theorem divide_multiply_round_trip (a b : ℝ) (hb : b ≠ 0) :
    (multiply a b >>= fun r => divide r b) = Except.ok a := by
  show divide (a * b) b = Except.ok a
  unfold divide
  rw [if_neg hb, mul_div_assoc, div_self hb, mul_one]

/-- Witness for C7 at concrete inputs: multiplying 3 by 2 and dividing back by
2 returns 3. -/
theorem divide_multiply_round_trip_witness :
    (multiply 3 2 >>= fun r => divide r 2) = Except.ok 3 :=
  divide_multiply_round_trip 3 2 (by norm_num)

/-- C8: for every `x ≥ 0`, `square_root x` returns a value whose square is
exactly `x` (in the real-number model the identity is exact, hence within any
floating-point tolerance). -/
theorem square_root_sq_round_trip (x : ℝ) (hx : 0 ≤ x) :
    ∃ r, square_root x = .ok r ∧ r ^ 2 = x := by
  refine ⟨Real.sqrt x, ?_, Real.sq_sqrt hx⟩
  unfold square_root
  rw [if_neg (not_lt.2 hx), show (0.5 : ℝ) = 1 / 2 by norm_num,
    ← Real.sqrt_eq_rpow]

/-- Witness for C8 at a concrete input: `square_root 16` returns a value whose
square is 16. -/
theorem square_root_sq_round_trip_witness :
    ∃ r, square_root 16 = .ok r ∧ r ^ 2 = 16 :=
  square_root_sq_round_trip 16 (by norm_num)

/-- C9: the concrete cases hold exactly: `add 5 3 = 8`,
`subtract 3 10 = -7`, `multiply (-5) (-3) = 15`, `divide 7 2 = 3.5`,
`power 2 3 = 8` and `square_root 16 = 4`. -/
theorem concrete_cases :
    add 5 3 = .ok 8 ∧ subtract 3 10 = .ok (-7) ∧
    multiply (-5) (-3) = .ok 15 ∧ divide 7 2 = .ok 3.5 ∧
    power 2 3 = .ok 8 ∧ square_root 16 = .ok 4 := by
  refine ⟨?_, ?_, ?_, ?_, ?_, ?_⟩
  · unfold add; norm_num
  · unfold subtract; norm_num
  · unfold multiply; norm_num
  · unfold divide; rw [if_neg (by norm_num : (2 : ℝ) ≠ 0)]; norm_num
  · unfold power
    rw [if_neg (by norm_num), show (3 : ℝ) = ((3 : ℕ) : ℝ) by norm_num,
      Real.rpow_natCast]
    norm_num
  · unfold square_root
    rw [if_neg (by norm_num), show (0.5 : ℝ) = 1 / 2 by norm_num,
      ← Real.sqrt_eq_rpow, show (16 : ℝ) = 4 ^ 2 by norm_num,
      Real.sqrt_sq (by norm_num : (0 : ℝ) ≤ 4)]

/-- C10: `power x 0` returns `1` for every real `x`, including `x = 0`
(`0 ** 0` evaluates to `1` in Python). -/
theorem power_exponent_zero (x : ℝ) : power x 0 = .ok 1 := by
  unfold power
  rw [if_neg (fun h => absurd h.2 (lt_irrefl 0)), Real.rpow_zero]

end Calculator
